import Mathlib

/-
Verification of the conan `auther` package: a JWT token lifecycle manager
with an in-memory revocation blacklist and refresh-token rotation.

Shallow embedding conventions:
- Time is a Nat (nanoseconds, matching Go time.Duration granularity); every
  operation that calls time.Now() in Go takes the current instant `now` as an
  explicit parameter, with all time.Now() calls inside one operation reading
  the same instant.
- The HMAC signature is modelled as an ideal MAC: a signature value records
  the key, the algorithm and the signed claims, and verification is equality
  with the signature recomputed under the configured key.  Constructor
  injectivity captures unforgeability.
- The SHA-256 fingerprint used as the blacklist key is modelled as an
  injective hash, so the blacklist is keyed by the token wire value itself.
- A serialized token string is a TokenWire: either unparseable garbage or a
  parsed (alg, claims, signature) triple.
- The random JTI from generateJTI is passed as an explicit parameter.
- Fallible Go functions return Except; the one reachable nil-pointer
  dereference (RevokeToken on a token with no exp claim) is modelled by an
  explicit panic constructor in the result type.
-/

namespace Conan

/-- Go type TokenType is a string; the two constants are "access" and
"refresh".  The Go zero value "" is representable, as in the source. -/
abbrev TokenType := String

/-- Source constant AccessToken. -/
def AccessToken : TokenType := "access"

/-- Source constant RefreshToken. -/
def RefreshToken : TokenType := "refresh"

/-- The jwt.RegisteredClaims fields used by the source.  In Go the time
fields are *jwt.NumericDate pointers, so each is an Option here; a Go nil
pointer is none. -/
structure RegisteredClaims where
  id : String
  issuer : String
  subject : String
  audience : List String
  expiresAt : Option Nat
  notBefore : Option Nat
  issuedAt : Option Nat
deriving DecidableEq, Repr

/-- TokenClaims from the source: custom fields plus embedded
jwt.RegisteredClaims.  A Go nil metadata map is the empty list. -/
structure TokenClaims where
  userID : String
  username : String
  role : String
  type : TokenType
  metadata : List (String × String)
  registered : RegisteredClaims
deriving DecidableEq, Repr

/-- JWT signing algorithms relevant to the keyfunc allow-list: the HMAC
family is accepted, anything else is rejected. -/
inductive Alg where
  | HS256
  | HS384
  | HS512
  | RS256
  | algNone
deriving DecidableEq, Repr

/-- The keyfunc check: token.Method must be *jwt.SigningMethodHMAC. -/
def Alg.isHMAC : Alg → Bool
  | .HS256 => true
  | .HS384 => true
  | .HS512 => true
  | _ => false

/-- An ideal-MAC signature value: determined exactly by the key, the
algorithm and the signed claims. -/
structure MacSig where
  key : String
  alg : Alg
  signedClaims : TokenClaims
deriving DecidableEq, Repr

/-- Signing: produce the MAC of the claims under the key. -/
def hmacSign (key : String) (alg : Alg) (claims : TokenClaims) : MacSig :=
  ⟨key, alg, claims⟩

/-- A serialized token string as the parser sees it: either malformed
(unparseable) or a well-formed three-part token with header algorithm,
payload claims and signature. -/
inductive TokenWire where
  | malformed (raw : String)
  | parsed (alg : Alg) (claims : TokenClaims) (sig : MacSig)
deriving DecidableEq, Repr

/-- TokenInfo from the source: the signed token string plus denormalized
copies of its fields. -/
structure TokenInfo where
  token : TokenWire
  type : TokenType
  expiresAt : Nat
  userID : String
  username : String
  role : String
  metadata : List (String × String)
deriving DecidableEq, Repr

/-- TokenPair from the source. -/
structure TokenPair where
  accessToken : TokenInfo
  refreshToken : TokenInfo
deriving DecidableEq, Repr

/-- The error taxonomy of the package.  parseError stands for the wrapped
underlying parse or signature error ("failed to parse token: %w"); the
named errors are the package-level sentinel errors. -/
inductive AuthError where
  | invalidToken
  | expiredToken
  | revokedToken
  | invalidTokenType
  | secretKeyEmpty
  | parseError
deriving DecidableEq, Repr

/-- BlackListItem from the source.  TokenHash is the SHA-256 fingerprint of
the raw token string; the hash is modelled as injective, so the fingerprint
is the wire value itself. -/
structure BlackListItem where
  tokenHash : TokenWire
  expiresAt : Nat
  userID : String
  createdAt : Nat
deriving DecidableEq, Repr

/-- BlackList from the source: a map keyed by fingerprint, modelled as an
association list with at most one entry per key (Add overwrites). -/
structure BlackList where
  items : List (TokenWire × BlackListItem)
deriving DecidableEq, Repr

/-- NewBlackList: the empty blacklist. -/
def NewBlackList : BlackList := ⟨[]⟩

/-- BlackList.Add: insert or overwrite the entry for the token fingerprint.
CreatedAt is time.Now(). -/
def BlackList.add (bl : BlackList) (now : Nat) (token : TokenWire)
    (userID : String) (expiresAt : Nat) : BlackList :=
  ⟨(token, ⟨token, expiresAt, userID, now⟩) ::
    bl.items.filter (fun p => decide (p.1 ≠ token))⟩

/-- BlackList.IsRevoked: look up by fingerprint; a found entry whose
ExpiresAt has already passed (time.Now().After(item.ExpiresAt)) is treated
as not revoked. -/
def BlackList.isRevoked (bl : BlackList) (now : Nat) (token : TokenWire) : Bool :=
  match bl.items.find? (fun p => decide (p.1 = token)) with
  | none => false
  | some p => decide (now ≤ p.2.expiresAt)

/-- BlackList.Cleanup: delete every entry whose ExpiresAt has passed. -/
def BlackList.cleanup (bl : BlackList) (now : Nat) : BlackList :=
  ⟨bl.items.filter (fun p => decide (now ≤ p.2.expiresAt))⟩

/-- BlackList.Size. -/
def BlackList.size (bl : BlackList) : Nat := bl.items.length

/-- AutherConfig from the source.  Durations are nanoseconds. -/
structure AutherConfig where
  secretKey : String
  accessTokenExp : Nat
  refreshTokenExp : Nat
  issuer : String
  blackListEnabled : Bool
  blackListCleanupInterval : Nat
deriving DecidableEq, Repr

/-- DefaultAutherConfig from the source: 2h access, 7d refresh, issuer
"conan", blacklist enabled, 1h cleanup interval (values in nanoseconds). -/
def DefaultAutherConfig : AutherConfig :=
  { secretKey := ""
  , accessTokenExp := 2 * 3600 * 1000000000
  , refreshTokenExp := 7 * 24 * 3600 * 1000000000
  , issuer := "conan"
  , blackListEnabled := true
  , blackListCleanupInterval := 3600 * 1000000000 }

/-- The jwtAuther state: its immutable config and the blacklist, the only
mutable state the claims concern.  The stopChan and closeOnce fields only
govern the background cleanup goroutine lifecycle and carry no data. -/
structure JwtAuther where
  config : AutherConfig
  blackList : BlackList
deriving Repr

/-- Go strings.TrimSpace: strip leading and trailing whitespace from a
string (written with structural list recursion so it evaluates). -/
def trimSpace (s : String) : String :=
  ⟨((s.data.dropWhile Char.isWhitespace).reverse.dropWhile Char.isWhitespace).reverse⟩

/-- NewAuther from the source: reject a nil config or an all-whitespace
secret; start from DefaultAutherConfig; trim and store the secret; override
each duration only when positive and the issuer only when non-empty
(trimming it); copy BlackListEnabled from the caller unconditionally. -/
def NewAuther (authConfig : Option AutherConfig) : Except AuthError JwtAuther :=
  match authConfig with
  | none => .error .secretKeyEmpty
  | some ac =>
    if trimSpace ac.secretKey = "" then .error .secretKeyEmpty
    else
      let c1 := { DefaultAutherConfig with secretKey := trimSpace ac.secretKey }
      let c2 := if 0 < ac.accessTokenExp then { c1 with accessTokenExp := ac.accessTokenExp } else c1
      let c3 := if 0 < ac.refreshTokenExp then { c2 with refreshTokenExp := ac.refreshTokenExp } else c2
      let c4 := if ac.issuer ≠ "" then { c3 with issuer := trimSpace ac.issuer } else c3
      let c5 := { c4 with blackListEnabled := ac.blackListEnabled }
      let c6 := if 0 < ac.blackListCleanupInterval then { c5 with blackListCleanupInterval := ac.blackListCleanupInterval } else c5
      .ok { config := c6, blackList := NewBlackList }

/-- The ClaimSet generateTokenInternal builds: NotBefore = IssuedAt = now,
ExpiresAt = now + exp, Subject = UserID, Audience = [configured Issuer],
ID = the random JTI (an explicit parameter here). -/
def mintedClaims (a : JwtAuther) (now : Nat) (jti : String)
    (userID username role : String) (tokenType : TokenType) (exp : Nat)
    (metadata : List (String × String)) : TokenClaims :=
  { userID := userID
  , username := username
  , role := role
  , type := tokenType
  , metadata := metadata
  , registered :=
    { id := jti
    , issuer := a.config.issuer
    , subject := userID
    , audience := [a.config.issuer]
    , expiresAt := some (now + exp)
    , notBefore := some now
    , issuedAt := some now } }

/-- The serialized token generateTokenInternal signs: HS256 under the
configured secret over the minted claims. -/
def mintedWire (a : JwtAuther) (now : Nat) (jti : String)
    (userID username role : String) (tokenType : TokenType) (exp : Nat)
    (metadata : List (String × String)) : TokenWire :=
  TokenWire.parsed Alg.HS256
    (mintedClaims a now jti userID username role tokenType exp metadata)
    (hmacSign a.config.secretKey Alg.HS256
      (mintedClaims a now jti userID username role tokenType exp metadata))

/-- generateTokenInternal from the source: build the claims, sign with
HS256 under the configured secret, and return the TokenInfo with the
denormalized fields. -/
def generateTokenInternal (a : JwtAuther) (now : Nat) (jti : String)
    (userID username role : String) (tokenType : TokenType) (exp : Nat)
    (metadata : List (String × String)) : TokenInfo :=
  { token := mintedWire a now jti userID username role tokenType exp metadata
  , type := tokenType
  , expiresAt := now + exp
  , userID := userID
  , username := username
  , role := role
  , metadata := metadata }

/-- MintAccessToken from the source: always mints AccessToken kind. -/
def MintAccessToken (a : JwtAuther) (now : Nat) (jti : String)
    (userID username role : String) (exp : Nat)
    (metadata : List (String × String)) : TokenInfo :=
  generateTokenInternal a now jti userID username role AccessToken exp metadata

/-- GenerateTokenPair from the source: an access token with the configured
access TTL and the caller metadata, and a refresh token with the configured
refresh TTL and nil metadata. -/
def GenerateTokenPair (a : JwtAuther) (now : Nat) (jtiAccess jtiRefresh : String)
    (userID username role : String) (metadata : List (String × String)) : TokenPair :=
  { accessToken := MintAccessToken a now jtiAccess userID username role a.config.accessTokenExp metadata
  , refreshToken := generateTokenInternal a now jtiRefresh userID username role RefreshToken a.config.refreshTokenExp [] }

/-- GetTokenInfo from the source: jwt.NewParser().ParseUnverified — extract
the claims without verifying the signature or validating the claims; fails
only on a malformed token. -/
def GetTokenInfo (token : TokenWire) : Option TokenClaims :=
  match token with
  | .malformed _ => none
  | .parsed _ claims _ => some claims

/-- The registered-claims validation jwt v5 performs inside ParseWithClaims
when the parser is built with no options, as in the source: exp and nbf are
checked only when present (valid iff now < exp and nbf ≤ now); iat is not
validated at all without the WithIssuedAt parser option. -/
def claimsTimeValid (now : Nat) (r : RegisteredClaims) : Bool :=
  (match r.expiresAt with | none => true | some e => decide (now < e)) &&
  (match r.notBefore with | none => true | some n => decide (n ≤ now))

/-- jwt.ParseWithClaims with the keyfunc of ValidateToken: succeeds iff the
token parses, its header algorithm is in the HMAC family, its signature is
the MAC of its claims under the given secret, and the registered claims
validate at now.  Any failure is an error whose precise identity the caller
discards. -/
def ParseWithClaims (secret : String) (now : Nat) (token : TokenWire) : Option TokenClaims :=
  match token with
  | .malformed _ => none
  | .parsed alg claims sig =>
    if alg.isHMAC && decide (sig = hmacSign secret alg claims)
        && claimsTimeValid now claims.registered
    then some claims else none

/-- The zero value of TokenClaims: what tmpClaims holds in the fallback
branch when ParseUnverified fails on a malformed token (the error is
discarded and the struct stays zero-valued). -/
def emptyClaims : TokenClaims :=
  { userID := ""
  , username := ""
  , role := ""
  , type := ""
  , metadata := []
  , registered :=
    { id := "", issuer := "", subject := "", audience := []
    , expiresAt := none, notBefore := none, issuedAt := none } }

/-- The fallback classification of a parse or verification failure in
ValidateToken, computed from unverified claims: expired if the unverified
ExpiresAt is in the past; invalid if the unverified NotBefore is in the
future; invalid on a detectable Issuer or Audience mismatch; otherwise the
wrapped underlying parse error. -/
def classifyParseFailure (cfg : AutherConfig) (now : Nat) (token : TokenWire) : AuthError :=
  let tmpClaims := (GetTokenInfo token).getD emptyClaims
  if tmpClaims.registered.expiresAt.any (fun e => decide (e < now)) then .expiredToken
  else if tmpClaims.registered.notBefore.any (fun n => decide (now < n)) then .invalidToken
  else if tmpClaims.registered.issuer ≠ "" ∧ cfg.issuer ≠ "" ∧ tmpClaims.registered.issuer ≠ cfg.issuer then .invalidToken
  else if tmpClaims.registered.audience ≠ [] ∧ cfg.issuer ≠ "" ∧ cfg.issuer ∉ tmpClaims.registered.audience then .invalidToken
  else .parseError

/-- ValidateToken from the source: when the blacklist is enabled, fail fast
with ErrRevokedToken on a revoked fingerprint; then ParseWithClaims; on
failure classify via the unverified claims; on success re-check NotBefore
explicitly and check Issuer equality and Audience membership against the
configured Issuer when it is non-empty. -/
def ValidateToken (a : JwtAuther) (now : Nat) (token : TokenWire) : Except AuthError TokenClaims :=
  if a.config.blackListEnabled && a.blackList.isRevoked now token then
    .error .revokedToken
  else
    match ParseWithClaims a.config.secretKey now token with
    | none => .error (classifyParseFailure a.config now token)
    | some claims =>
      if claims.registered.notBefore.any (fun n => decide (now < n)) then .error .invalidToken
      else if a.config.issuer ≠ "" ∧ claims.registered.issuer ≠ a.config.issuer then .error .invalidToken
      else if a.config.issuer ≠ "" ∧ a.config.issuer ∉ claims.registered.audience then .error .invalidToken
      else .ok claims

/-- Result of RevokeToken.  nilDeref models the Go panic raised by
claims.ExpiresAt.Time when the parsed token carries no exp claim, so
claims.ExpiresAt is a nil *jwt.NumericDate. -/
inductive RevokeOutcome where
  | ok (bl : BlackList)
  | err (e : AuthError)
  | nilDeref
deriving DecidableEq, Repr

/-- RevokeToken from the source: a no-op when the blacklist is disabled;
otherwise GetTokenInfo (unverified parse), then BlackList.Add keyed on the
fingerprint with the token claims ExpiresAt.Time as entry expiry — a read
through the nil pointer when the token has no exp claim. -/
def RevokeToken (a : JwtAuther) (now : Nat) (token : TokenWire) : RevokeOutcome :=
  if !a.config.blackListEnabled then .ok a.blackList
  else
    match GetTokenInfo token with
    | none => .err .parseError
    | some claims =>
      match claims.registered.expiresAt with
      | none => .nilDeref
      | some exp => .ok (a.blackList.add now token claims.userID exp)

/-- IsTokenRevoked from the source. -/
def IsTokenRevoked (a : JwtAuther) (now : Nat) (token : TokenWire) : Bool :=
  if !a.config.blackListEnabled then false
  else a.blackList.isRevoked now token

/-- CleanupExpiredTokens from the source. -/
def CleanupExpiredTokens (a : JwtAuther) (now : Nat) : JwtAuther :=
  if !a.config.blackListEnabled then a
  else { a with blackList := a.blackList.cleanup now }

/-- Result of RefreshTokenRotate: a new pair together with the updated
auther state, an error, or a propagated panic from RevokeToken. -/
inductive RotateResult where
  | ok (pair : TokenPair) (a : JwtAuther)
  | err (e : AuthError)
  | nilDeref
deriving Repr

/-- The new pair a successful rotation or the first successful rotation
mints, as a projection for stating results. -/
def RotateResult.newPair : RotateResult → Option TokenPair
  | .ok pair _ => some pair
  | _ => none

/-- RefreshTokenRotate from the source: validate the presented refresh
token (errors propagate, wrapped); reject non-Refresh kinds with
ErrInvalidTokenType; when the blacklist is enabled revoke the old token
before minting; then mint a new access token with the claims metadata and a
new refresh token with nil metadata, from the claims identity fields.  The
two fresh JTIs are explicit parameters. -/
def RefreshTokenRotate (a : JwtAuther) (now : Nat) (jti1 jti2 : String)
    (refreshToken : TokenWire) : RotateResult :=
  match ValidateToken a now refreshToken with
  | .error e => .err e
  | .ok claims =>
    if claims.type ≠ RefreshToken then .err .invalidTokenType
    else
      match (if a.config.blackListEnabled then RevokeToken a now refreshToken else .ok a.blackList) with
      | .nilDeref => .nilDeref
      | .err e => .err e
      | .ok bl =>
        RotateResult.ok
          { accessToken := MintAccessToken { a with blackList := bl } now jti1 claims.userID claims.username claims.role a.config.accessTokenExp claims.metadata
          , refreshToken := generateTokenInternal { a with blackList := bl } now jti2 claims.userID claims.username claims.role RefreshToken a.config.refreshTokenExp [] }
          { a with blackList := bl }

/-! ## Helper lemmas and concrete instances -/

/-- Bridge between Option.any and an existential over the option. -/
theorem option_any_iff_exists (o : Option Nat) (p : Nat → Bool) :
    o.any p = true ↔ ∃ x, o = some x ∧ p x = true := by
  cases o <;> simp [Option.any]

/-- A token the service minted validates successfully while its time window
is open and its fingerprint is not revoked, and the validated claims are
exactly the minted ones. -/
theorem ValidateToken_minted (a : JwtAuther) (t0 now exp : Nat)
    (jti userID username role : String) (ty : TokenType) (md : List (String × String))
    (hrev : a.blackList.isRevoked now (mintedWire a t0 jti userID username role ty exp md) = false)
    (h1 : t0 ≤ now) (h2 : now < t0 + exp) :
    ValidateToken a now (mintedWire a t0 jti userID username role ty exp md)
      = .ok (mintedClaims a t0 jti userID username role ty exp md) := by
  have hnb : ¬ now < t0 := Nat.not_lt.mpr h1
  simp only [mintedWire, mintedClaims] at hrev ⊢
  simp [ValidateToken, hrev, ParseWithClaims, Alg.isHMAC, claimsTimeValid, h1, h2, hnb]

/-- A concrete service instance for witnesses: secret "k" on top of the
default config (blacklist enabled, issuer "conan"), empty blacklist. -/
def demoAuther : JwtAuther :=
  { config := { DefaultAutherConfig with secretKey := "k" }, blackList := NewBlackList }

/-- A well-formed, correctly signed claim set that carries no exp claim
(ExpiresAt is a nil pointer in the Go struct). -/
def noExpClaims : TokenClaims :=
  { userID := "u"
  , username := "n"
  , role := "r"
  , type := AccessToken
  , metadata := []
  , registered :=
    { id := "j", issuer := "conan", subject := "u", audience := ["conan"]
    , expiresAt := none, notBefore := none, issuedAt := none } }

/-- The wire form of noExpClaims, signed under demoAuther's secret. -/
def noExpTok : TokenWire :=
  TokenWire.parsed Alg.HS256 noExpClaims (hmacSign "k" Alg.HS256 noExpClaims)

/-- The caller configuration that supplies only a secret and leaves every
other field at its Go zero value. -/
def onlySecretConfig (s : String) : AutherConfig :=
  { secretKey := s, accessTokenExp := 0, refreshTokenExp := 0, issuer := ""
  , blackListEnabled := false, blackListCleanupInterval := 0 }

/-! ## Claims -/

/-- Claim C4 is false as stated: constructing the service from a
configuration that supplies only the secret "k" yields a service whose
revocation flag is false, because NewAuther copies BlackListEnabled from
the caller configuration unconditionally instead of defaulting it to
true. -/
theorem C4_counterexample :
    (NewAuther (some (onlySecretConfig "k"))).map (fun a => a.config.blackListEnabled)
      = .ok false := by rfl

/-- Claim C4 (amended): constructing the service from a configuration that
supplies a secret but leaves the other fields unset applies the documented
defaults for access TTL (2h), refresh TTL (7d), Issuer ("conan") and
cleanup interval (1h), and stores the trimmed secret — but the
revocation-enabled flag is copied verbatim from the caller configuration,
so it is false when left unset. -/
theorem C4_defaults_except_revocation_flag (s : String) (h : ¬ trimSpace s = "") :
    NewAuther (some (onlySecretConfig s)) = .ok
      { config :=
        { secretKey := trimSpace s
        , accessTokenExp := 2 * 3600 * 1000000000
        , refreshTokenExp := 7 * 24 * 3600 * 1000000000
        , issuer := "conan"
        , blackListEnabled := false
        , blackListCleanupInterval := 3600 * 1000000000 }
      , blackList := ⟨[]⟩ } := by
  simp [NewAuther, onlySecretConfig, h, DefaultAutherConfig, NewBlackList]

/-- Witness for C4: the amended construction result at the concrete secret
"k". -/
theorem C4_defaults_witness :
    NewAuther (some (onlySecretConfig "k")) = .ok
      { config :=
        { secretKey := trimSpace "k"
        , accessTokenExp := 2 * 3600 * 1000000000
        , refreshTokenExp := 7 * 24 * 3600 * 1000000000
        , issuer := "conan"
        , blackListEnabled := false
        , blackListCleanupInterval := 3600 * 1000000000 }
      , blackList := ⟨[]⟩ } :=
  C4_defaults_except_revocation_flag "k" (by decide)

/-- Claim C10: with revocation enabled, RevokeToken dereferences the parsed
token claims ExpiresAt without a nil check: on a well-formed, correctly
signed token that carries no exp claim it panics (modelled by the nilDeref
outcome) instead of returning an error. -/
theorem C10_revoke_nil_exp_panic :
    RevokeToken demoAuther 100 noExpTok = RevokeOutcome.nilDeref := by rfl

/-- Claim C6: after revoke(T, owner, e), while now ≤ e the fingerprint is
reported revoked and ValidateToken fails with RevokedError; once e < now
the entry is treated as not revoked (lazy expiry) even before the sweep
deletes it. -/
theorem C6_revocation_window (a : JwtAuther) (t0 now e : Nat) (tok : TokenWire) (owner : String)
    (henabled : a.config.blackListEnabled = true) :
    (now ≤ e →
      (a.blackList.add t0 tok owner e).isRevoked now tok = true
      ∧ ValidateToken { a with blackList := a.blackList.add t0 tok owner e } now tok
          = .error .revokedToken)
    ∧ (e < now → (a.blackList.add t0 tok owner e).isRevoked now tok = false) := by
  have hfind : ((a.blackList.add t0 tok owner e).items.find? (fun p => decide (p.1 = tok)))
      = some (tok, ⟨tok, e, owner, t0⟩) := by
    simp [BlackList.add, List.find?]
  constructor
  · intro hle
    have hrv : (a.blackList.add t0 tok owner e).isRevoked now tok = true := by
      simp [BlackList.isRevoked, hfind, hle]
    refine ⟨hrv, ?_⟩
    simp [ValidateToken, henabled, hrv]
  · intro hgt
    simp [BlackList.isRevoked, hfind, Nat.not_le.mpr hgt]

/-- Witness for C6 at a concrete revocation: entry expiry 10, lookups at
instant 5. -/
theorem C6_revocation_witness :
    (5 ≤ 10 →
      (demoAuther.blackList.add 0 noExpTok "u" 10).isRevoked 5 noExpTok = true
      ∧ ValidateToken { demoAuther with blackList := demoAuther.blackList.add 0 noExpTok "u" 10 } 5 noExpTok
          = .error .revokedToken)
    ∧ (10 < 5 → (demoAuther.blackList.add 0 noExpTok "u" 10).isRevoked 5 noExpTok = false) :=
  C6_revocation_window demoAuther 0 5 10 noExpTok "u" rfl

/-- Claim C7: a token minted by this service with the configured secret,
validated after its ExpiresAt has passed (and with its fingerprint not
revoked), yields exactly ExpiredError, not a generic invalid or parse
error. -/
theorem C7_expired_classification (a : JwtAuther) (t0 now exp : Nat)
    (jti userID username role : String) (ty : TokenType) (md : List (String × String))
    (hrev : a.blackList.isRevoked now (mintedWire a t0 jti userID username role ty exp md) = false)
    (hpast : t0 + exp < now) :
    ValidateToken a now (mintedWire a t0 jti userID username role ty exp md)
      = .error .expiredToken := by
  have hnlt : ¬ now < t0 + exp := Nat.lt_asymm hpast
  simp only [mintedWire, mintedClaims] at hrev ⊢
  simp [ValidateToken, hrev, ParseWithClaims, Alg.isHMAC, claimsTimeValid,
    hnlt, classifyParseFailure, GetTokenInfo, hpast]

/-- Witness for C7: an access token minted at 0 with TTL 100, validated at
200, on the demo service. -/
theorem C7_expired_witness :
    ValidateToken demoAuther 200 (mintedWire demoAuther 0 "j" "u" "n" "r" AccessToken 100 [])
      = .error .expiredToken :=
  C7_expired_classification demoAuther 0 200 100 "j" "u" "n" "r" AccessToken [] rfl (by decide)

/-- When ParseWithClaims succeeds, the token is a parsed HMAC-family token
whose signature is the MAC under the given secret over exactly the
returned claims, and the registered time claims validate at now. -/
theorem ParseWithClaims_ok_elim (secret : String) (now : Nat) (tok : TokenWire) (c : TokenClaims)
    (h : ParseWithClaims secret now tok = some c) :
    (∃ alg sig, tok = TokenWire.parsed alg c sig ∧ alg.isHMAC = true
      ∧ sig = hmacSign secret alg c)
    ∧ claimsTimeValid now c.registered = true := by
  cases tok with
  | malformed s => simp [ParseWithClaims] at h
  | parsed alg claims sig =>
    simp only [ParseWithClaims] at h
    by_cases hcond : (alg.isHMAC && decide (sig = hmacSign secret alg claims)
        && claimsTimeValid now claims.registered) = true
    · rw [if_pos hcond] at h
      injection h with h
      subst h
      simp only [Bool.and_eq_true, decide_eq_true_eq] at hcond
      exact ⟨⟨alg, sig, rfl, hcond.1.1, hcond.1.2⟩, hcond.2⟩
    · rw [if_neg hcond] at h
      exact absurd h (by simp)

/-- The time bounds claimsTimeValid certifies for the present fields. -/
theorem claimsTimeValid_bounds (now : Nat) (r : RegisteredClaims)
    (h : claimsTimeValid now r = true) :
    (∀ e, r.expiresAt = some e → now < e) ∧ (∀ n, r.notBefore = some n → n ≤ now) := by
  unfold claimsTimeValid at h
  simp only [Bool.and_eq_true] at h
  refine ⟨?_, ?_⟩
  · intro e he; rw [he] at h; simpa using h.1
  · intro n hn; rw [hn] at h; simpa using h.2

/-- Claim C2: with revocation enabled and a non-empty configured Issuer, a
non-error return from ValidateToken means the token is a parsed HMAC-family
token correctly signed under the configured secret over the returned
claims, its time window is valid at the check instant, its Issuer equals
the configured Issuer, its Audience contains the configured Issuer, and
its fingerprint was not recorded as actively revoked in the revocation
registry at check time. -/
theorem C2_success_guarantees (a : JwtAuther) (now : Nat) (tok : TokenWire) (c : TokenClaims)
    (hiss : a.config.issuer ≠ "") (hbl : a.config.blackListEnabled = true)
    (hok : ValidateToken a now tok = .ok c) :
    (∃ alg sig, tok = TokenWire.parsed alg c sig ∧ alg.isHMAC = true
      ∧ sig = hmacSign a.config.secretKey alg c)
    ∧ (∀ e, c.registered.expiresAt = some e → now ≤ e)
    ∧ (∀ n, c.registered.notBefore = some n → n ≤ now)
    ∧ c.registered.issuer = a.config.issuer
    ∧ a.config.issuer ∈ c.registered.audience
    ∧ a.blackList.isRevoked now tok = false := by
  unfold ValidateToken at hok
  split at hok
  · exact absurd hok (by simp)
  · next hgate =>
    have hrev : a.blackList.isRevoked now tok = false := by
      cases hr : a.blackList.isRevoked now tok with
      | false => rfl
      | true => exact absurd (by simp [hbl, hr]) hgate
    cases hp : ParseWithClaims a.config.secretKey now tok with
    | none => rw [hp] at hok; exact absurd hok (by simp)
    | some claims =>
      rw [hp] at hok
      obtain ⟨hwire, htime⟩ := ParseWithClaims_ok_elim _ _ _ _ hp
      obtain ⟨hexp, hnbf⟩ := claimsTimeValid_bounds _ _ htime
      split at hok
      · exact absurd hok (by simp)
      · next claims2 heq2 =>
        injection heq2 with heq2
        subst heq2
        by_cases hnb : Option.any (fun n => decide (now < n)) claims.registered.notBefore = true
        · rw [if_pos hnb] at hok; exact absurd hok (by simp)
        rw [if_neg hnb] at hok
        by_cases hissmis : a.config.issuer ≠ "" ∧ claims.registered.issuer ≠ a.config.issuer
        · rw [if_pos hissmis] at hok; exact absurd hok (by simp)
        rw [if_neg hissmis] at hok
        by_cases haudmis : a.config.issuer ≠ "" ∧ a.config.issuer ∉ claims.registered.audience
        · rw [if_pos haudmis] at hok; exact absurd hok (by simp)
        rw [if_neg haudmis] at hok
        injection hok with hck
        subst hck
        refine ⟨hwire, fun e he => Nat.le_of_lt (hexp e he), hnbf, ?_, ?_, hrev⟩
        · by_contra hne
          exact hissmis ⟨hiss, hne⟩
        · by_contra hnm
          exact haudmis ⟨hiss, hnm⟩

/-- Witness for C2: a freshly minted access token on the demo service
validated at instant 5 inside its window. -/
theorem C2_success_witness :
    (∃ alg sig, mintedWire demoAuther 0 "jA" "u" "n" "r" AccessToken 100 [("m","v")]
        = TokenWire.parsed alg (mintedClaims demoAuther 0 "jA" "u" "n" "r" AccessToken 100 [("m","v")]) sig
      ∧ alg.isHMAC = true
      ∧ sig = hmacSign demoAuther.config.secretKey alg
          (mintedClaims demoAuther 0 "jA" "u" "n" "r" AccessToken 100 [("m","v")]))
    ∧ (∀ e, (mintedClaims demoAuther 0 "jA" "u" "n" "r" AccessToken 100 [("m","v")]).registered.expiresAt = some e → 5 ≤ e)
    ∧ (∀ n, (mintedClaims demoAuther 0 "jA" "u" "n" "r" AccessToken 100 [("m","v")]).registered.notBefore = some n → n ≤ 5)
    ∧ (mintedClaims demoAuther 0 "jA" "u" "n" "r" AccessToken 100 [("m","v")]).registered.issuer = demoAuther.config.issuer
    ∧ demoAuther.config.issuer ∈ (mintedClaims demoAuther 0 "jA" "u" "n" "r" AccessToken 100 [("m","v")]).registered.audience
    ∧ demoAuther.blackList.isRevoked 5 (mintedWire demoAuther 0 "jA" "u" "n" "r" AccessToken 100 [("m","v")]) = false :=
  C2_success_guarantees demoAuther 5
    (mintedWire demoAuther 0 "jA" "u" "n" "r" AccessToken 100 [("m","v")])
    (mintedClaims demoAuther 0 "jA" "u" "n" "r" AccessToken 100 [("m","v")])
    (by decide) rfl
    (ValidateToken_minted demoAuther 0 5 100 "jA" "u" "n" "r" AccessToken [("m","v")]
      rfl (by decide) (by decide))

/-- Claim C3: a token signed with a secret different from the configured
one never reaches the success branch of ValidateToken, regardless of its
claim contents, algorithm choice or the check instant. -/
theorem C3_wrong_secret_rejected (a : JwtAuther) (now : Nat) (s2 : String) (alg : Alg)
    (claims : TokenClaims)
    (hs : s2 ≠ a.config.secretKey) :
    (ValidateToken a now (TokenWire.parsed alg claims (hmacSign s2 alg claims))).isOk = false := by
  have hneq : ¬ (hmacSign s2 alg claims = hmacSign a.config.secretKey alg claims) := by
    simp [hmacSign, hs]
  have hpn : ParseWithClaims a.config.secretKey now
      (TokenWire.parsed alg claims (hmacSign s2 alg claims)) = none := by
    simp [ParseWithClaims, hneq]
  unfold ValidateToken
  split
  · rfl
  · rw [hpn]
    rfl

/-- Witness for C3: a token over noExpClaims signed with "wrong" instead of
the demo secret "k" is rejected at instant 5. -/
theorem C3_wrong_secret_witness :
    (ValidateToken demoAuther 5
      (TokenWire.parsed Alg.HS256 noExpClaims (hmacSign "wrong" Alg.HS256 noExpClaims))).isOk = false :=
  C3_wrong_secret_rejected demoAuther 5 "wrong" Alg.HS256 noExpClaims (by decide)

/-- Negative direction of the Option.any bridge. -/
theorem option_any_eq_false_of_not_exists (o : Option Nat) (p : Nat → Bool)
    (h : ¬ ∃ x, o = some x ∧ p x = true) : o.any p = false := by
  cases hh : o.any p with
  | false => rfl
  | true => exact absurd ((option_any_iff_exists o p).mp hh) h

/-- Claim C8: when the revocation gate passes but parsing or signature
verification fails, ValidateToken classifies the failure from the
unverified claims u in exactly this priority order: an unverified
ExpiresAt in the past yields ExpiredError; else an unverified NotBefore in
the future yields InvalidError; else a detectable Issuer or Audience
mismatch against the configured Issuer yields InvalidError; otherwise the
underlying parse or signature error is returned. -/
theorem C8_failure_classification (a : JwtAuther) (now : Nat) (tok : TokenWire) (u : TokenClaims)
    (hgate : (a.config.blackListEnabled && a.blackList.isRevoked now tok) = false)
    (hfail : ParseWithClaims a.config.secretKey now tok = none)
    (hu : (GetTokenInfo tok).getD emptyClaims = u) :
    ((∃ e, u.registered.expiresAt = some e ∧ e < now) →
        ValidateToken a now tok = .error .expiredToken)
    ∧ (¬ (∃ e, u.registered.expiresAt = some e ∧ e < now) →
       (∃ n, u.registered.notBefore = some n ∧ now < n) →
        ValidateToken a now tok = .error .invalidToken)
    ∧ (¬ (∃ e, u.registered.expiresAt = some e ∧ e < now) →
       ¬ (∃ n, u.registered.notBefore = some n ∧ now < n) →
       ((u.registered.issuer ≠ "" ∧ a.config.issuer ≠ "" ∧ u.registered.issuer ≠ a.config.issuer)
         ∨ (u.registered.audience ≠ [] ∧ a.config.issuer ≠ "" ∧ a.config.issuer ∉ u.registered.audience)) →
        ValidateToken a now tok = .error .invalidToken)
    ∧ (¬ (∃ e, u.registered.expiresAt = some e ∧ e < now) →
       ¬ (∃ n, u.registered.notBefore = some n ∧ now < n) →
       ¬ ((u.registered.issuer ≠ "" ∧ a.config.issuer ≠ "" ∧ u.registered.issuer ≠ a.config.issuer)
         ∨ (u.registered.audience ≠ [] ∧ a.config.issuer ≠ "" ∧ a.config.issuer ∉ u.registered.audience)) →
        ValidateToken a now tok = .error .parseError) := by
  have hval : ValidateToken a now tok = .error (classifyParseFailure a.config now tok) := by
    unfold ValidateToken
    rw [hfail]
    rw [if_neg (by simp [hgate])]
  refine ⟨?_, ?_, ?_, ?_⟩
  · rintro ⟨e, he, hlt⟩
    rw [hval]
    have h1 : u.registered.expiresAt.any (fun x => decide (x < now)) = true :=
      (option_any_iff_exists _ _).mpr ⟨e, he, by simpa using hlt⟩
    simp [classifyParseFailure, hu, h1]
  · intro hne hex
    obtain ⟨n, hn, hlt⟩ := hex
    rw [hval]
    have h1 : u.registered.expiresAt.any (fun x => decide (x < now)) = false :=
      option_any_eq_false_of_not_exists _ _ (by simpa using hne)
    have h2 : u.registered.notBefore.any (fun x => decide (now < x)) = true :=
      (option_any_iff_exists _ _).mpr ⟨n, hn, by simpa using hlt⟩
    simp [classifyParseFailure, hu, h1, h2]
  · intro hne hnn hmis
    rw [hval]
    have h1 : u.registered.expiresAt.any (fun x => decide (x < now)) = false :=
      option_any_eq_false_of_not_exists _ _ (by simpa using hne)
    have h2 : u.registered.notBefore.any (fun x => decide (now < x)) = false :=
      option_any_eq_false_of_not_exists _ _ (by simpa using hnn)
    rcases hmis with hm | hm
    · simp [classifyParseFailure, hu, h1, h2, hm.1, hm.2.1, hm.2.2]
    · by_cases hm1 : u.registered.issuer ≠ "" ∧ a.config.issuer ≠ "" ∧ u.registered.issuer ≠ a.config.issuer
      · simp [classifyParseFailure, hu, h1, h2, hm1.1, hm1.2.1, hm1.2.2]
      · simp [classifyParseFailure, hu, h1, h2, hm1, hm.1, hm.2.1, hm.2.2]
  · intro hne hnn hnm
    rw [hval]
    have h1 : u.registered.expiresAt.any (fun x => decide (x < now)) = false :=
      option_any_eq_false_of_not_exists _ _ (by simpa using hne)
    have h2 : u.registered.notBefore.any (fun x => decide (now < x)) = false :=
      option_any_eq_false_of_not_exists _ _ (by simpa using hnn)
    obtain ⟨hp, hq⟩ := not_or.mp hnm
    simp [classifyParseFailure, hu, h1, h2, hp, hq]

/-- A correctly-signed claim set whose exp claim (50) is already in the
past at the check instant 100 used below. -/
def expiredClaims : TokenClaims :=
  { noExpClaims with registered := { noExpClaims.registered with expiresAt := some 50 } }

/-- The wire form of expiredClaims under the demo secret. -/
def expiredTok : TokenWire :=
  TokenWire.parsed Alg.HS256 expiredClaims (hmacSign "k" Alg.HS256 expiredClaims)

/-- Witness for C8: the classification at instant 100 of expiredTok, whose
unverified exp claim 50 is in the past. -/
theorem C8_failure_witness :
    ((∃ e, expiredClaims.registered.expiresAt = some e ∧ e < 100) →
        ValidateToken demoAuther 100 expiredTok = .error .expiredToken)
    ∧ (¬ (∃ e, expiredClaims.registered.expiresAt = some e ∧ e < 100) →
       (∃ n, expiredClaims.registered.notBefore = some n ∧ 100 < n) →
        ValidateToken demoAuther 100 expiredTok = .error .invalidToken)
    ∧ (¬ (∃ e, expiredClaims.registered.expiresAt = some e ∧ e < 100) →
       ¬ (∃ n, expiredClaims.registered.notBefore = some n ∧ 100 < n) →
       ((expiredClaims.registered.issuer ≠ "" ∧ demoAuther.config.issuer ≠ "" ∧ expiredClaims.registered.issuer ≠ demoAuther.config.issuer)
         ∨ (expiredClaims.registered.audience ≠ [] ∧ demoAuther.config.issuer ≠ "" ∧ demoAuther.config.issuer ∉ expiredClaims.registered.audience)) →
        ValidateToken demoAuther 100 expiredTok = .error .invalidToken)
    ∧ (¬ (∃ e, expiredClaims.registered.expiresAt = some e ∧ e < 100) →
       ¬ (∃ n, expiredClaims.registered.notBefore = some n ∧ 100 < n) →
       ¬ ((expiredClaims.registered.issuer ≠ "" ∧ demoAuther.config.issuer ≠ "" ∧ expiredClaims.registered.issuer ≠ demoAuther.config.issuer)
         ∨ (expiredClaims.registered.audience ≠ [] ∧ demoAuther.config.issuer ≠ "" ∧ demoAuther.config.issuer ∉ expiredClaims.registered.audience)) →
        ValidateToken demoAuther 100 expiredTok = .error .parseError) :=
  C8_failure_classification demoAuther 100 expiredTok expiredClaims rfl rfl rfl

/-- Claim C9: a minted pair has Access kind on the access artifact and
Refresh kind on the refresh artifact, and with a fresh (empty) blacklist
and positive TTLs both token strings validate successfully immediately
after minting, returning exactly the minted claims. -/
theorem C9_mint_validate_roundtrip (a : JwtAuther) (now : Nat) (jA jR uid un role : String)
    (md : List (String × String))
    (hbl : a.blackList = NewBlackList)
    (hae : 0 < a.config.accessTokenExp) (hre : 0 < a.config.refreshTokenExp) :
    (GenerateTokenPair a now jA jR uid un role md).accessToken.type = AccessToken
    ∧ (GenerateTokenPair a now jA jR uid un role md).refreshToken.type = RefreshToken
    ∧ ValidateToken a now (GenerateTokenPair a now jA jR uid un role md).accessToken.token
        = .ok (mintedClaims a now jA uid un role AccessToken a.config.accessTokenExp md)
    ∧ ValidateToken a now (GenerateTokenPair a now jA jR uid un role md).refreshToken.token
        = .ok (mintedClaims a now jR uid un role RefreshToken a.config.refreshTokenExp []) := by
  refine ⟨rfl, rfl, ?_, ?_⟩
  · exact ValidateToken_minted a now now a.config.accessTokenExp jA uid un role AccessToken md
      (by rw [hbl]; rfl) (Nat.le_refl now) (by omega)
  · exact ValidateToken_minted a now now a.config.refreshTokenExp jR uid un role RefreshToken []
      (by rw [hbl]; rfl) (Nat.le_refl now) (by omega)

/-- Witness for C9: a pair minted at instant 0 on the demo service. -/
theorem C9_roundtrip_witness :
    (GenerateTokenPair demoAuther 0 "jA" "jB" "u" "n" "r" [("m","v")]).accessToken.type = AccessToken
    ∧ (GenerateTokenPair demoAuther 0 "jA" "jB" "u" "n" "r" [("m","v")]).refreshToken.type = RefreshToken
    ∧ ValidateToken demoAuther 0 (GenerateTokenPair demoAuther 0 "jA" "jB" "u" "n" "r" [("m","v")]).accessToken.token
        = .ok (mintedClaims demoAuther 0 "jA" "u" "n" "r" AccessToken demoAuther.config.accessTokenExp [("m","v")])
    ∧ ValidateToken demoAuther 0 (GenerateTokenPair demoAuther 0 "jA" "jB" "u" "n" "r" [("m","v")]).refreshToken.token
        = .ok (mintedClaims demoAuther 0 "jB" "u" "n" "r" RefreshToken demoAuther.config.refreshTokenExp []) :=
  C9_mint_validate_roundtrip demoAuther 0 "jA" "jB" "u" "n" "r" [("m","v")] rfl
    (by decide) (by decide)

/-- A valid refresh-kind claim set carrying nonempty metadata, correctly
signed under the demo secret; used to show rotation drops metadata on the
new refresh artifact. -/
def c5Claims : TokenClaims :=
  { userID := "u"
  , username := "n"
  , role := "r"
  , type := RefreshToken
  , metadata := [("m", "v")]
  , registered :=
    { id := "jB", issuer := "conan", subject := "u", audience := ["conan"]
    , expiresAt := some 1000, notBefore := some 0, issuedAt := some 0 } }

/-- The wire form of c5Claims under the demo secret. -/
def c5Tok : TokenWire :=
  TokenWire.parsed Alg.HS256 c5Claims (hmacSign "k" Alg.HS256 c5Claims)

/-- Claim C5 is false as stated: rotating c5Tok (accepted, validated claims
metadata [("m","v")]) succeeds, the new access artifact carries the claims
metadata, but the new refresh artifact carries empty metadata, because the
source mints the new refresh token with a nil metadata map. -/
theorem C5_counterexample :
    (RefreshTokenRotate demoAuther 10 "j1" "j2" c5Tok).newPair.map
        (fun p => (p.accessToken.metadata, p.refreshToken.metadata))
      = some ([("m", "v")], []) := by rfl

/-- Claim C5 (amended): for every refresh token the rotation accepts, the
new access artifact carries the same UserID, Username, Role and Metadata as
the validated claims, and the new refresh artifact carries the same UserID,
Username and Role but empty (nil) Metadata. -/
theorem C5_identity_propagation (a : JwtAuther) (now : Nat) (j1 j2 : String) (tok : TokenWire)
    (c : TokenClaims) (pair : TokenPair) (a2 : JwtAuther)
    (hval : ValidateToken a now tok = .ok c)
    (hrot : RefreshTokenRotate a now j1 j2 tok = .ok pair a2) :
    pair.accessToken.userID = c.userID
    ∧ pair.accessToken.username = c.username
    ∧ pair.accessToken.role = c.role
    ∧ pair.accessToken.metadata = c.metadata
    ∧ pair.refreshToken.userID = c.userID
    ∧ pair.refreshToken.username = c.username
    ∧ pair.refreshToken.role = c.role
    ∧ pair.refreshToken.metadata = [] := by
  unfold RefreshTokenRotate at hrot
  rw [hval] at hrot
  split at hrot
  · exact absurd hrot (by simp)
  · next claims2 heq =>
    injection heq with heq
    subst heq
    by_cases hty : c.type ≠ RefreshToken
    · rw [if_pos hty] at hrot
      exact absurd hrot (by simp)
    rw [if_neg hty] at hrot
    split at hrot
    · exact absurd hrot (by simp)
    · exact absurd hrot (by simp)
    · next bl heq2 =>
      injection hrot with h1 h2
      subst h1
      simp [MintAccessToken, generateTokenInternal]

/-- The updated service state after the witness rotation below. -/
def c5Auther2 : JwtAuther :=
  { demoAuther with blackList := demoAuther.blackList.add 10 c5Tok "u" 1000 }

/-- The pair the witness rotation below mints. -/
def c5Pair : TokenPair :=
  { accessToken := MintAccessToken c5Auther2 10 "j1" "u" "n" "r" demoAuther.config.accessTokenExp [("m", "v")]
  , refreshToken := generateTokenInternal c5Auther2 10 "j2" "u" "n" "r" RefreshToken demoAuther.config.refreshTokenExp [] }

/-- Witness for C5: the amended identity propagation at the concrete
rotation of c5Tok on the demo service. -/
theorem C5_identity_witness :
    c5Pair.accessToken.userID = c5Claims.userID
    ∧ c5Pair.accessToken.username = c5Claims.username
    ∧ c5Pair.accessToken.role = c5Claims.role
    ∧ c5Pair.accessToken.metadata = c5Claims.metadata
    ∧ c5Pair.refreshToken.userID = c5Claims.userID
    ∧ c5Pair.refreshToken.username = c5Claims.username
    ∧ c5Pair.refreshToken.role = c5Claims.role
    ∧ c5Pair.refreshToken.metadata = [] :=
  C5_identity_propagation demoAuther 10 "j1" "j2" c5Tok c5Claims c5Pair c5Auther2
    (by rfl) (by rfl)

/-- Rotation reports a validation failure of the presented token as the
same error, unchanged. -/
theorem RefreshTokenRotate_err (a : JwtAuther) (now : Nat) (j1 j2 : String) (tok : TokenWire)
    (e : AuthError) (hval : ValidateToken a now tok = .error e) :
    RefreshTokenRotate a now j1 j2 tok = .err e := by
  unfold RefreshTokenRotate
  rw [hval]

/-- A token whose fingerprint is actively revoked fails validation with
RevokedError when the blacklist is enabled. -/
theorem ValidateToken_revoked (a : JwtAuther) (now : Nat) (tok : TokenWire)
    (henabled : a.config.blackListEnabled = true)
    (hrev : a.blackList.isRevoked now tok = true) :
    ValidateToken a now tok = .error .revokedToken := by
  unfold ValidateToken
  rw [if_pos (by simp [henabled, hrev])]

/-- Looking up the token just added reports it revoked exactly while its
entry expiry has not passed. -/
theorem isRevoked_add_self (bl : BlackList) (t0 now e : Nat) (tok : TokenWire) (owner : String) :
    (bl.add t0 tok owner e).isRevoked now tok = decide (now ≤ e) := by
  simp [BlackList.add, BlackList.isRevoked, List.find?]

/-- A blacklist holding only one other token does not report tok2
revoked. -/
theorem isRevoked_singleton_other (t0 now e : Nat) (tok tok2 : TokenWire) (owner : String)
    (hne : ¬ (tok = tok2)) :
    ((NewBlackList).add t0 tok owner e).isRevoked now tok2 = false := by
  simp [NewBlackList, BlackList.add, BlackList.isRevoked, List.find?, hne]

/-- The successful path of RefreshTokenRotate: a validated refresh-kind
token with an exp claim is revoked into the blacklist and a fresh pair is
minted from its claims. -/
theorem RefreshTokenRotate_ok (a : JwtAuther) (now : Nat) (j1 j2 : String) (tok : TokenWire)
    (c : TokenClaims) (e : Nat)
    (hval : ValidateToken a now tok = .ok c)
    (hty : c.type = RefreshToken)
    (henabled : a.config.blackListEnabled = true)
    (hinfo : GetTokenInfo tok = some c)
    (hexp : c.registered.expiresAt = some e) :
    RefreshTokenRotate a now j1 j2 tok = RotateResult.ok
      { accessToken := MintAccessToken { a with blackList := a.blackList.add now tok c.userID e }
          now j1 c.userID c.username c.role a.config.accessTokenExp c.metadata
      , refreshToken := generateTokenInternal { a with blackList := a.blackList.add now tok c.userID e }
          now j2 c.userID c.username c.role RefreshToken a.config.refreshTokenExp [] }
      { a with blackList := a.blackList.add now tok c.userID e } := by
  unfold RefreshTokenRotate RevokeToken
  rw [hval, henabled, hinfo]
  simp [hty, hexp]

/-- Claim C1: with revocation enabled, every refresh token the service
mints is single-use: starting from a fresh blacklist, the first
RefreshTokenRotate call on it succeeds, a second call on the same token
against the updated state fails with RevokedError, and both tokens of the
pair the first call returned validate successfully. -/
theorem C1_refresh_single_use (a : JwtAuther) (t0 : Nat) (jA jB j1 j2 j3 j4 uid un role : String)
    (md : List (String × String))
    (henabled : a.config.blackListEnabled = true)
    (hbl : a.blackList = NewBlackList)
    (hae : 0 < a.config.accessTokenExp) (hre : 0 < a.config.refreshTokenExp)
    (hj : jB ≠ j2) :
    ∃ pair a2,
      RefreshTokenRotate a t0 j1 j2 (GenerateTokenPair a t0 jA jB uid un role md).refreshToken.token
        = RotateResult.ok pair a2
      ∧ RefreshTokenRotate a2 t0 j3 j4 (GenerateTokenPair a t0 jA jB uid un role md).refreshToken.token
        = RotateResult.err AuthError.revokedToken
      ∧ (∃ cA, ValidateToken a2 t0 pair.accessToken.token = .ok cA)
      ∧ (∃ cR, ValidateToken a2 t0 pair.refreshToken.token = .ok cR) := by
  rw [show (GenerateTokenPair a t0 jA jB uid un role md).refreshToken.token
      = mintedWire a t0 jB uid un role RefreshToken a.config.refreshTokenExp [] from rfl]
  have hval1 := ValidateToken_minted a t0 t0 a.config.refreshTokenExp jB uid un role RefreshToken []
    (by rw [hbl]; rfl) (Nat.le_refl t0) (by omega)
  have hrot1 := RefreshTokenRotate_ok a t0 j1 j2
    (mintedWire a t0 jB uid un role RefreshToken a.config.refreshTokenExp [])
    (mintedClaims a t0 jB uid un role RefreshToken a.config.refreshTokenExp [])
    (t0 + a.config.refreshTokenExp)
    hval1 rfl henabled rfl rfl
  refine ⟨_, _, hrot1, ?_, ?_, ?_⟩
  · apply RefreshTokenRotate_err
    apply ValidateToken_revoked
    · exact henabled
    · show ((a.blackList.add t0 _ _ _).isRevoked t0 _) = true
      rw [isRevoked_add_self]
      simp
  · refine ⟨_, ValidateToken_minted _ t0 t0 a.config.accessTokenExp j1 _ _ _ AccessToken _ ?_ (Nat.le_refl t0) (by omega)⟩
    show ((a.blackList.add t0 _ _ _).isRevoked t0 _) = false
    rw [hbl]
    apply isRevoked_singleton_other
    simp [mintedWire, mintedClaims, AccessToken, RefreshToken]
  · refine ⟨_, ValidateToken_minted _ t0 t0 a.config.refreshTokenExp j2 _ _ _ RefreshToken _ ?_ (Nat.le_refl t0) (by omega)⟩
    show ((a.blackList.add t0 _ _ _).isRevoked t0 _) = false
    rw [hbl]
    apply isRevoked_singleton_other
    simp [mintedWire, mintedClaims, hj]

/-- Witness for C1: the single-use protocol run concretely on the demo
service at instant 0. -/
theorem C1_single_use_witness :
    ∃ pair a2,
      RefreshTokenRotate demoAuther 0 "j1" "j2" (GenerateTokenPair demoAuther 0 "jA" "jB" "u" "n" "r" []).refreshToken.token
        = RotateResult.ok pair a2
      ∧ RefreshTokenRotate a2 0 "j3" "j4" (GenerateTokenPair demoAuther 0 "jA" "jB" "u" "n" "r" []).refreshToken.token
        = RotateResult.err AuthError.revokedToken
      ∧ (∃ cA, ValidateToken a2 0 pair.accessToken.token = .ok cA)
      ∧ (∃ cR, ValidateToken a2 0 pair.refreshToken.token = .ok cR) :=
  C1_refresh_single_use demoAuther 0 "jA" "jB" "j1" "j2" "j3" "j4" "u" "n" "r" []
    rfl rfl (by decide) (by decide) (by decide)

end Conan
